import Mathlib

/-!
Shallow embedding of the photo-gallery backend (app.py): a Flask app with
MongoDB user/photo collections, Cloudinary blob storage, and cookie sessions.
Request handlers become pure functions from an explicit application state (the
two Mongo collections, the set of Cloudinary blobs, and the session) to a
response paired with the successor state.  External nondeterminism (Cloudinary
upload/destroy outcomes, bcrypt hashing, generated ObjectIds, clock readings)
is passed in as explicit parameters.
-/

namespace Gallery

/-- Hex-digit test used by BSON ObjectId validation. -/
def isHexChar (c : Char) : Bool :=
  c.isDigit || (("a" : String).front ≤ c && c ≤ ("f" : String).front) ||
    (("A" : String).front ≤ c && c ≤ ("F" : String).front)

/-- BSON accepts a 24-character hex string as an ObjectId. -/
def isValidObjectId (s : String) : Bool :=
  s.length == 24 && s.data.all isHexChar

/-- Mirrors the `ObjectId(s)` constructor from bson: returns the id on a valid
24-character hex string and fails (raises `InvalidId` in Python) otherwise.
ObjectId values are represented by their canonical hex string, so `str` of an
ObjectId is the identity. -/
def parseObjectId (s : String) : Option String :=
  if isValidObjectId s then some s else none

/-- Message of the `InvalidId` exception raised by `ObjectId` on a malformed
string (modelled; the claims only depend on the 500 status it produces). -/
def invalidOidMsg (s : String) : String :=
  s ++ " is not a valid ObjectId, it must be a 12-byte input or a 24-character hex string"

/-- A value stored in a MongoDB photo document. -/
inductive BVal where
  | str (v : String)
  | oid (v : String)
  | time (v : Nat)
deriving DecidableEq, Repr

/-- A JSON value appearing in a response body. -/
inductive JVal where
  | str (v : String)
  | boolv (v : Bool)
  | obj (fields : List (String × BVal))
  | arr (elems : List (List (String × BVal)))
deriving DecidableEq, Repr

/-- An HTTP response: status code plus JSON object body. -/
structure Resp where
  status : Nat
  body : List (String × JVal)
deriving DecidableEq, Repr

/-- Python dict `d.pop(k, None)`: remove the key if present. -/
def dictPop (d : List (String × BVal)) (k : String) : List (String × BVal) :=
  d.filter (fun kv => kv.1 != k)

/-- Python dict `d[k] = v`: update in place if the key exists, else append. -/
def dictSet (d : List (String × BVal)) (k : String) (v : BVal) : List (String × BVal) :=
  if d.any (fun kv => kv.1 == k) then
    d.map (fun kv => if kv.1 == k then (k, v) else kv)
  else
    d ++ [(k, v)]

/-- Python dict read `d.get(k)`. -/
def dictGet (d : List (String × BVal)) (k : String) : Option BVal :=
  (d.find? (fun kv => kv.1 == k)).map Prod.snd

/-- Read a key of a JSON response body. -/
def bodyGet (b : List (String × JVal)) (k : String) : Option JVal :=
  (b.find? (fun kv => kv.1 == k)).map Prod.snd

/-- A document of the `users` collection: `_id`, `username`, bcrypt `password`. -/
structure UserRec where
  _id : String
  username : String
  password : String
deriving DecidableEq, Repr

/-- A document of the `photos` collection, as inserted by `upload_photo`. -/
structure Photo where
  _id : String
  user_id : String
  src : String
  public_id : String
  title : String
  date : String
  uploaded_at : Nat
deriving DecidableEq, Repr

/-- Flask session contents after login: `user_id` (the string form of the
Mongo `_id`) and `username`.  The two keys are always set and cleared
together (login sets both, logout pops both), so the session is modelled as
an optional pair. -/
structure SessionData where
  user_id : String
  username : String
deriving DecidableEq, Repr

/-- The whole mutable world a handler can observe: the database flag (`db is
None` when the Mongo connection failed at startup), the two collections, the
set of Cloudinary blobs (by `public_id`), and the session. -/
structure AppState where
  dbUp : Bool
  users : List UserRec
  photos : List Photo
  blobs : List String
  sess : Option SessionData
deriving DecidableEq, Repr

/-- JSON error body used throughout: `success: false` plus a message. -/
def errBody (m : String) : List (String × JVal) :=
  [("success", JVal.boolv false), ("message", JVal.str m)]

/-- JSON success body: `success: true` plus a message. -/
def okBody (m : String) : List (String × JVal) :=
  [("success", JVal.boolv true), ("message", JVal.str m)]

/-- The uniform 500 returned by every data route when `db is None`. -/
def dbErrorResp : Resp := ⟨500, errBody "Database Error"⟩

/-- The fixed 401 produced by the `login_required` decorator. -/
def unauthorizedResp : Resp := ⟨401, errBody "Unauthorized. Please log in."⟩

/-- Flask's catch-all 500 page for an exception that no handler catches. -/
def internalErrorResp : Resp := ⟨500, [("error", JVal.str "Internal Server Error")]⟩

/-- The `login_required` decorator: if the session has no `user_id`, answer
401 with a fixed message without invoking the wrapped handler; otherwise run
the handler. -/
def login_required (f : AppState → Resp × AppState) (st : AppState) : Resp × AppState :=
  if st.sess.isSome then f st else (unauthorizedResp, st)

/-- The `users_collection.find_one with a username filter` lookup shared by
register and login; a missing username field matches no document. -/
def lookupUser (users : List UserRec) (username : Option String) : Option UserRec :=
  match username with
  | some u => users.find? (fun r => r.username == u)
  | none => none

/-- POST /api/register.  `hashFn` stands for `bcrypt.generate_password_hash`
(salted, hence passed in), `newId` for the `_id` Mongo generates on insert. -/
def register (hashFn : String → String) (newId : String)
    (username password : Option String) (st : AppState) : Resp × AppState :=
  if st.dbUp = false then (dbErrorResp, st) else
  match username, password with
  | some u, some p =>
    if u == "" || p == "" then
      (⟨400, errBody "Username and password are required."⟩, st)
    else if (lookupUser st.users (some u)).isSome then
      (⟨409, errBody "Username already exists."⟩, st)
    else
      (⟨200, okBody "Registration successful! Login now."⟩,
        { st with users := st.users ++ [⟨newId, u, hashFn p⟩] })
  | _, _ => (⟨400, errBody "Username and password are required."⟩, st)

/-- POST /api/login.  `check` stands for `bcrypt.check_password_hash` applied
to the stored hash and the (possibly missing) request password. -/
def login (check : String → Option String → Bool)
    (username password : Option String) (st : AppState) : Resp × AppState :=
  if st.dbUp = false then (dbErrorResp, st) else
  match lookupUser st.users username with
  | some urec =>
    if check urec.password password then
      (⟨200, [("success", JVal.boolv true), ("message", JVal.str "Login successful."),
              ("username", JVal.str urec.username)]⟩,
        { st with sess := some ⟨urec._id, urec.username⟩ })
    else
      (⟨401, errBody "Invalid username or password."⟩, st)
  | none => (⟨401, errBody "Invalid username or password."⟩, st)

/-- Handler body of POST /api/logout: pop both session keys. -/
def logout_core (st : AppState) : Resp × AppState :=
  (⟨200, okBody "Logout successful."⟩, { st with sess := none })

/-- POST /api/logout (wrapped in `login_required`). -/
def logout (st : AppState) : Resp × AppState :=
  login_required logout_core st

/-- GET /api/status: report the current session, mutating nothing. -/
def get_status (st : AppState) : Resp × AppState :=
  match st.sess with
  | some sd => (⟨200, [("isLoggedIn", JVal.boolv true), ("username", JVal.str sd.username)]⟩, st)
  | none => (⟨200, [("isLoggedIn", JVal.boolv false)]⟩, st)

/-- The MongoDB photo document as the find cursor returns it. -/
def photoDoc (p : Photo) : List (String × BVal) :=
  [("_id", BVal.oid p._id), ("user_id", BVal.oid p.user_id), ("src", BVal.str p.src),
   ("public_id", BVal.str p.public_id), ("title", BVal.str p.title),
   ("date", BVal.str p.date), ("uploaded_at", BVal.time p.uploaded_at)]

/-- The per-photo dict built by the GET /api/photos loop: stringify `_id`,
then pop `user_id`, `uploaded_at` and `public_id`. -/
def listViewDict (p : Photo) : List (String × BVal) :=
  dictPop (dictPop (dictPop (dictSet (photoDoc p) "_id" (BVal.str p._id))
    "user_id") "uploaded_at") "public_id"

/-- The dict returned by POST /api/photos: the inserted document (in literal
key order) with the stringified `_id` added, then `uploaded_at`, `user_id`
and `public_id` popped. -/
def uploadRespDict (p : Photo) : List (String × BVal) :=
  dictPop (dictPop (dictPop (dictSet
    [("user_id", BVal.oid p.user_id), ("src", BVal.str p.src),
     ("public_id", BVal.str p.public_id), ("title", BVal.str p.title),
     ("date", BVal.str p.date), ("uploaded_at", BVal.time p.uploaded_at)]
    "_id" (BVal.str p._id)) "uploaded_at") "user_id") "public_id"

/-- Insert a photo into a list that is sorted by `uploaded_at` descending. -/
def insertByTime (p : Photo) : List Photo → List Photo
  | [] => [p]
  | q :: qs =>
    if q.uploaded_at ≤ p.uploaded_at then p :: q :: qs else q :: insertByTime p qs

/-- The Mongo `.sort with uploaded_at descending` applied by GET /api/photos. -/
def sortByTimeDesc (l : List Photo) : List Photo :=
  l.foldr insertByTime []

/-- Handler body of POST /api/photos.  `up` is the Cloudinary upload outcome
(`secure_url` and `public_id` on success, the exception message on failure),
`file` the request file (`none` when no `photo` part is attached, otherwise
its filename), `newId` the `_id` Mongo generates, `dateStr` and `now` the
clock readings. -/
def upload_photo_core (up : Except String (String × String)) (file : Option String)
    (newId dateStr : String) (now : Nat) (st : AppState) : Resp × AppState :=
  if st.dbUp = false then (dbErrorResp, st) else
  match file with
  | none => (⟨400, errBody "No photo file provided."⟩, st)
  | some fname =>
    match st.sess with
    | none => (unauthorizedResp, st)
    | some sd =>
      if fname == "" then (⟨400, errBody "No selected file."⟩, st) else
      match up with
      | Except.error e => (⟨500, errBody ("Cloud Upload Failed: " ++ e)⟩, st)
      | Except.ok (secure_url, public_id) =>
        let st1 := { st with blobs := st.blobs ++ [public_id] }
        match parseObjectId sd.user_id with
        | none => (internalErrorResp, st1)
        | some uid =>
          let photo : Photo := ⟨newId, uid, secure_url, public_id, fname, dateStr, now⟩
          (⟨200, [("success", JVal.boolv true),
                  ("message", JVal.str "Photo uploaded successfully."),
                  ("photo", JVal.obj (uploadRespDict photo))]⟩,
            { st1 with photos := st1.photos ++ [photo] })

/-- POST /api/photos (wrapped in `login_required`). -/
def upload_photo (up : Except String (String × String)) (file : Option String)
    (newId dateStr : String) (now : Nat) (st : AppState) : Resp × AppState :=
  login_required (upload_photo_core up file newId dateStr now) st

/-- Handler body of GET /api/photos: filter the collection to the session
user, sort by `uploaded_at` descending, strip internal fields. -/
def get_photos_core (st : AppState) : Resp × AppState :=
  if st.dbUp = false then (dbErrorResp, st) else
  match st.sess with
  | none => (unauthorizedResp, st)
  | some sd =>
    match parseObjectId sd.user_id with
    | none => (internalErrorResp, st)
    | some uid =>
      let owned := st.photos.filter (fun p => p.user_id == uid)
      (⟨200, [("success", JVal.boolv true),
              ("photos", JVal.arr ((sortByTimeDesc owned).map listViewDict))]⟩, st)

/-- GET /api/photos (wrapped in `login_required`). -/
def get_photos (st : AppState) : Resp × AppState :=
  login_required get_photos_core st

/-- `photos_collection.delete_one by id`: remove the first document with the
given `_id`. -/
def delete_one_by_id : List Photo → String → List Photo
  | [], _ => []
  | p :: ps, i => if p._id == i then ps else p :: delete_one_by_id ps i

/-- Handler body of DELETE /api/photos/{photo_id}.  `destroy` is the
Cloudinary destroy outcome.  Everything from `ObjectId(photo_id)` on runs
inside a try/except that turns any exception into a 500. -/
def delete_photo_core (photo_id : String) (destroy : Except String Unit)
    (st : AppState) : Resp × AppState :=
  if st.dbUp = false then (dbErrorResp, st) else
  match st.sess with
  | none => (unauthorizedResp, st)
  | some sd =>
    match parseObjectId photo_id with
    | none => (⟨500, errBody ("Deletion failed: " ++ invalidOidMsg photo_id)⟩, st)
    | some pid =>
      match parseObjectId sd.user_id with
      | none => (⟨500, errBody ("Deletion failed: " ++ invalidOidMsg sd.user_id)⟩, st)
      | some uid =>
        match st.photos.find? (fun p => p._id == pid && p.user_id == uid) with
        | none => (⟨404, errBody "Photo not found or unauthorized to delete."⟩, st)
        | some photo =>
          match destroy with
          | Except.error e => (⟨500, errBody ("Deletion failed: " ++ e)⟩, st)
          | Except.ok _ =>
            (⟨200, okBody "Photo deleted successfully."⟩,
              { st with blobs := st.blobs.filter (fun b => b != photo.public_id),
                        photos := delete_one_by_id st.photos pid })

/-- DELETE /api/photos/{photo_id} (wrapped in `login_required`). -/
def delete_photo (photo_id : String) (destroy : Except String Unit)
    (st : AppState) : Resp × AppState :=
  login_required (delete_photo_core photo_id destroy) st

/-- GET /: serves index.html via `send_from_directory` (external); no session
check.  The body stands in for the file contents. -/
def index (st : AppState) : Resp × AppState :=
  (⟨200, [("static_file", JVal.str "index.html")]⟩, st)

/-- GET /{filename}: serves a static file via `send_from_directory`
(external); no session check. -/
def serve_static (filename : String) (st : AppState) : Resp × AppState :=
  (⟨200, [("static_file", JVal.str filename)]⟩, st)

/-- Projection: the photos array of a GET /api/photos response. -/
def respPhotos (r : Resp) : List (List (String × BVal)) :=
  match bodyGet r.body "photos" with
  | some (JVal.arr l) => l
  | _ => []

/-- Projection: the photo object of a POST /api/photos response. -/
def respPhotoObj (r : Resp) : List (String × BVal) :=
  match bodyGet r.body "photo" with
  | some (JVal.obj d) => d
  | _ => []

/-- Sample ObjectId of user Alice. -/
def oidA : String := "aaaaaaaaaaaaaaaaaaaaaaaa"

/-- Sample ObjectId of user Bob. -/
def oidB : String := "bbbbbbbbbbbbbbbbbbbbbbbb"

/-- Sample ObjectId of a photo record. -/
def oidP : String := "cccccccccccccccccccccccc"

/-- Sample ObjectId used for freshly inserted documents. -/
def oidNew : String := "dddddddddddddddddddddddd"

/-- Sample deterministic stand-in for the salted bcrypt hash. -/
def hashSamp (p : String) : String := "hashed:" ++ p

/-- Sample stand-in for the bcrypt hash check against `hashSamp`. -/
def checkSamp (stored : String) (given : Option String) : Bool :=
  match given with
  | some g => stored == "hashed:" ++ g
  | none => false

/-- Sample photo owned by Alice. -/
def photoA : Photo :=
  ⟨oidP, oidA, "https://res.cloudinary.example/img1.jpg", "cloudgallery/img1",
    "img1.jpg", "2026-10-12", 100⟩

/-- Sample state: Bob is logged in, the store holds only a photo of Alice. -/
def stBob : AppState :=
  ⟨true, [⟨oidA, "alice", hashSamp "pw1"⟩, ⟨oidB, "bob", hashSamp "pw2"⟩],
    [photoA], ["cloudgallery/img1"], some ⟨oidB, "bob"⟩⟩

/-- Sample state: Alice is logged in and owns the only photo. -/
def stAlice : AppState :=
  ⟨true, [⟨oidA, "alice", hashSamp "pw1"⟩],
    [photoA], ["cloudgallery/img1"], some ⟨oidA, "alice"⟩⟩

/-- Sample state with no session. -/
def stAnon : AppState :=
  ⟨true, [⟨oidA, "alice", hashSamp "pw1"⟩], [photoA], ["cloudgallery/img1"], none⟩

/-- The GET /api/photos per-photo dict computes to exactly the four public
fields, in cursor order. -/
theorem listViewDict_eq (p : Photo) :
    listViewDict p = [("_id", BVal.str p._id), ("src", BVal.str p.src),
      ("title", BVal.str p.title), ("date", BVal.str p.date)] := rfl

/-- The POST /api/photos response dict computes to exactly the four public
fields, in construction order. -/
theorem uploadRespDict_eq (p : Photo) :
    uploadRespDict p = [("src", BVal.str p.src), ("title", BVal.str p.title),
      ("date", BVal.str p.date), ("_id", BVal.str p._id)] := rfl

/-- Reading the stringified id back out of a list view. -/
theorem dictGet_listViewDict_id (p : Photo) :
    dictGet (listViewDict p) "_id" = some (BVal.str p._id) := rfl

/-- Insertion step of the descending sort is a permutation. -/
theorem insertByTime_perm (p : Photo) (l : List Photo) :
    List.Perm (insertByTime p l) (p :: l) := by
  induction l with
  | nil => simp [insertByTime]
  | cons q qs ih =>
    by_cases h : q.uploaded_at ≤ p.uploaded_at
    · simp [insertByTime, h]
    · simp only [insertByTime, if_neg h]
      exact (ih.cons q).trans (List.Perm.swap p q qs)

/-- The descending sort permutes its input. -/
theorem sortByTimeDesc_perm (l : List Photo) :
    List.Perm (sortByTimeDesc l) l := by
  induction l with
  | nil => simp [sortByTimeDesc]
  | cons p ps ih =>
    have hstep : sortByTimeDesc (p :: ps) = insertByTime p (sortByTimeDesc ps) := rfl
    rw [hstep]
    exact (insertByTime_perm p (sortByTimeDesc ps)).trans (ih.cons p)

/-- Insertion preserves the descending order invariant. -/
theorem pairwise_insertByTime (p : Photo) (l : List Photo)
    (h : List.Pairwise (fun a b => b.uploaded_at ≤ a.uploaded_at) l) :
    List.Pairwise (fun a b => b.uploaded_at ≤ a.uploaded_at) (insertByTime p l) := by
  induction l with
  | nil => simp [insertByTime]
  | cons q qs ih =>
    rcases List.pairwise_cons.mp h with ⟨hq, hqs⟩
    by_cases hle : q.uploaded_at ≤ p.uploaded_at
    · simp only [insertByTime, if_pos hle]
      refine List.pairwise_cons.mpr ⟨?_, h⟩
      intro x hx
      rcases List.mem_cons.mp hx with rfl | hx
      · exact hle
      · exact le_trans (hq x hx) hle
    · simp only [insertByTime, if_neg hle]
      refine List.pairwise_cons.mpr ⟨?_, ih hqs⟩
      intro x hx
      have hmem := (insertByTime_perm p qs).mem_iff.mp hx
      rcases List.mem_cons.mp hmem with rfl | hx2
      · exact le_of_not_le hle
      · exact hq x hx2

/-- The descending sort output is ordered by `uploaded_at`, newest first. -/
theorem sortByTimeDesc_sorted (l : List Photo) :
    List.Pairwise (fun a b => b.uploaded_at ≤ a.uploaded_at) (sortByTimeDesc l) := by
  induction l with
  | nil => simp [sortByTimeDesc]
  | cons p ps ih => exact pairwise_insertByTime p _ ih

/-- C9: `get_status` is a pure read that never fails: it leaves the state
unchanged, always answers 200, and reports the username exactly when the
session carries a user identifier. -/
theorem c9_status_pure_read (st : AppState) :
    (get_status st).2 = st ∧ (get_status st).1.status = 200 ∧
    (∀ sd, st.sess = some sd →
      (get_status st).1 =
        ⟨200, [("isLoggedIn", JVal.boolv true), ("username", JVal.str sd.username)]⟩) ∧
    (st.sess = none → (get_status st).1 = ⟨200, [("isLoggedIn", JVal.boolv false)]⟩) := by
  cases hs : st.sess with
  | none => simp [get_status, hs]
  | some sd => simp [get_status, hs]

theorem c9_status_pure_read_witness :
    (get_status stBob).2 = stBob ∧
    (get_status stBob).1 =
      ⟨200, [("isLoggedIn", JVal.boolv true), ("username", JVal.str "bob")]⟩ := by
  have h := c9_status_pure_read stBob
  exact ⟨h.1, h.2.2.1 ⟨oidB, "bob"⟩ rfl⟩



/-- C2: without a session, each of logout, upload, list and delete answers
the fixed 401 of the guard and leaves the state untouched, whatever the
request arguments and external outcomes; register, login, status and static
retrieval still execute (none of them produces the guard response). -/
theorem c2_guard_exactly_four (st : AppState) (h : st.sess = none) :
    logout st = (unauthorizedResp, st) ∧
    (∀ up file newId dateStr now,
      upload_photo up file newId dateStr now st = (unauthorizedResp, st)) ∧
    get_photos st = (unauthorizedResp, st) ∧
    (∀ pid destroy, delete_photo pid destroy st = (unauthorizedResp, st)) ∧
    (∀ hashFn newId u p, (register hashFn newId u p st).1 ≠ unauthorizedResp) ∧
    (∀ check u p, (login check u p st).1 ≠ unauthorizedResp) ∧
    get_status st = (⟨200, [("isLoggedIn", JVal.boolv false)]⟩, st) ∧
    (∀ fn, (serve_static fn st).1.status = 200) ∧
    (index st).1.status = 200 := by
  refine ⟨?_, ?_, ?_, ?_, ?_, ?_, ?_, ?_, ?_⟩
  · simp [logout, login_required, h]
  · intro up file newId dateStr now
    simp [upload_photo, login_required, h]
  · simp [get_photos, login_required, h]
  · intro pid destroy
    simp [delete_photo, login_required, h]
  · intro hashFn newId u p
    unfold register
    split
    · simp [dbErrorResp, unauthorizedResp]
    · split
      · split
        · simp [unauthorizedResp]
        · split
          · simp [unauthorizedResp]
          · simp [unauthorizedResp]
      · simp [unauthorizedResp]
  · intro check u p
    unfold login
    split
    · simp [dbErrorResp, unauthorizedResp]
    · split
      · split
        · simp [unauthorizedResp]
        · intro hc
          have : errBody "Invalid username or password." =
              errBody "Unauthorized. Please log in." := congrArg Resp.body hc
          simp [errBody] at this
      · intro hc
        have : errBody "Invalid username or password." =
            errBody "Unauthorized. Please log in." := congrArg Resp.body hc
        simp [errBody] at this
  · simp [get_status, h]
  · intro fn
    simp [serve_static]
  · simp [index]

theorem c2_guard_exactly_four_witness :
    logout stAnon = (unauthorizedResp, stAnon) ∧
    get_photos stAnon = (unauthorizedResp, stAnon) ∧
    delete_photo oidP (Except.ok ()) stAnon = (unauthorizedResp, stAnon) ∧
    upload_photo (Except.ok ("u", "p")) (some "f.jpg") oidNew "2026-10-12" 5 stAnon =
      (unauthorizedResp, stAnon) ∧
    (register hashSamp oidNew (some "carol") (some "pw3") stAnon).1 ≠ unauthorizedResp ∧
    get_status stAnon = (⟨200, [("isLoggedIn", JVal.boolv false)]⟩, stAnon) := by
  have h := c2_guard_exactly_four stAnon rfl
  exact ⟨h.1, h.2.2.1, h.2.2.2.1 oidP (Except.ok ()),
    h.2.1 (Except.ok ("u", "p")) (some "f.jpg") oidNew "2026-10-12" 5,
    h.2.2.2.2.1 hashSamp oidNew (some "carol") (some "pw3"), h.2.2.2.2.2.2.1⟩



/-- C3: whether the username is absent from the credential store or the hash
check rejects the password, login answers the very same 401 response with
message "Invalid username or password." and changes nothing, so the two
failure causes are indistinguishable to the caller. -/
theorem c3_login_failures_indistinguishable (check : String → Option String → Bool)
    (username password : Option String) (st : AppState) (hdb : st.dbUp = true)
    (hfail : lookupUser st.users username = none ∨
      ∃ urec, lookupUser st.users username = some urec ∧
        check urec.password password = false) :
    login check username password st =
      (⟨401, errBody "Invalid username or password."⟩, st) := by
  rcases hfail with hnone | ⟨urec, hsome, hchk⟩
  · simp [login, hdb, hnone]
  · simp [login, hdb, hsome, hchk]

theorem c3_login_failures_indistinguishable_witness :
    login checkSamp (some "mallory") (some "pw1") stBob =
      (⟨401, errBody "Invalid username or password."⟩, stBob) ∧
    login checkSamp (some "alice") (some "wrong") stBob =
      (⟨401, errBody "Invalid username or password."⟩, stBob) := by
  refine ⟨?_, ?_⟩
  · exact c3_login_failures_indistinguishable checkSamp (some "mallory") (some "pw1")
      stBob rfl (Or.inl (by decide))
  · exact c3_login_failures_indistinguishable checkSamp (some "alice") (some "wrong")
      stBob rfl (Or.inr ⟨⟨oidA, "alice", hashSamp "pw1"⟩, by decide, by decide⟩)

/-- C7: register answers 400 and stores nothing when either field is missing
or empty; answers 409 and stores nothing when the username already exists;
otherwise appends exactly one user carrying the hash of the password, and the
plaintext password appears in the store only if it was already there or the
hash fixes it. -/
theorem c7_register_cases (hashFn : String → String) (newId : String)
    (username password : Option String) (st : AppState) (hdb : st.dbUp = true) :
    ((username = none ∨ username = some "" ∨ password = none ∨ password = some "") →
      register hashFn newId username password st =
        (⟨400, errBody "Username and password are required."⟩, st)) ∧
    (∀ u p, username = some u → password = some p → u ≠ "" → p ≠ "" →
      ((lookupUser st.users (some u)).isSome →
        register hashFn newId username password st =
          (⟨409, errBody "Username already exists."⟩, st)) ∧
      (lookupUser st.users (some u) = none →
        register hashFn newId username password st =
          (⟨200, okBody "Registration successful! Login now."⟩,
            { st with users := st.users ++ [⟨newId, u, hashFn p⟩] }) ∧
        (∀ r ∈ (register hashFn newId username password st).2.users,
          r.password = p → r ∈ st.users ∨ hashFn p = p))) := by
  constructor
  · rintro (rfl | rfl | rfl | rfl)
    · cases password with
      | none => simp [register, hdb]
      | some p => simp [register, hdb]
    · cases password with
      | none => simp [register, hdb]
      | some p => simp [register, hdb]
    · cases username with
      | none => simp [register, hdb]
      | some u => simp [register, hdb]
    · cases username with
      | none => simp [register, hdb]
      | some u => simp [register, hdb]
  · rintro u p rfl rfl hu hp
    constructor
    · intro hex
      rw [Option.isSome_iff_exists] at hex
      rcases hex with ⟨r, hr⟩
      simp [register, hdb, hu, hp, hr]
    · intro hnone
      have heq : register hashFn newId (some u) (some p) st =
          (⟨200, okBody "Registration successful! Login now."⟩,
            { st with users := st.users ++ [⟨newId, u, hashFn p⟩] }) := by
        simp [register, hdb, hu, hp, hnone]
      refine ⟨heq, ?_⟩
      intro r hr hrp
      rw [heq] at hr
      simp only [List.mem_append, List.mem_singleton] at hr
      rcases hr with hmem | rfl
      · exact Or.inl hmem
      · exact Or.inr hrp

theorem c7_register_cases_witness :
    register hashSamp oidNew (some "carol") (some "") stBob =
      (⟨400, errBody "Username and password are required."⟩, stBob) ∧
    register hashSamp oidNew (some "alice") (some "pw9") stBob =
      (⟨409, errBody "Username already exists."⟩, stBob) ∧
    register hashSamp oidNew (some "carol") (some "pw3") stBob =
      (⟨200, okBody "Registration successful! Login now."⟩,
        { stBob with users := stBob.users ++ [⟨oidNew, "carol", hashSamp "pw3"⟩] }) := by
  have h400 := (c7_register_cases hashSamp oidNew (some "carol") (some "") stBob rfl).1
    (Or.inr (Or.inr (Or.inr rfl)))
  have h409 := ((c7_register_cases hashSamp oidNew (some "alice") (some "pw9") stBob rfl).2
    "alice" "pw9" rfl rfl (by decide) (by decide)).1 (by decide)
  have h200 := (((c7_register_cases hashSamp oidNew (some "carol") (some "pw3") stBob rfl).2
    "carol" "pw3" rfl rfl (by decide) (by decide)).2 (by decide)).1
  exact ⟨h400, h409, h200⟩



/-- C5: when the upload request fails — no file part, empty filename, or a
Cloudinary failure surfaced as a 500 carrying the underlying message — the
state is unchanged, so in particular no photo record is created. -/
theorem c5_upload_failure_no_record (st : AppState) (sd : SessionData)
    (hdb : st.dbUp = true) (hs : st.sess = some sd) :
    (∀ up newId dateStr now,
      upload_photo up none newId dateStr now st =
        (⟨400, errBody "No photo file provided."⟩, st)) ∧
    (∀ up newId dateStr now,
      upload_photo up (some "") newId dateStr now st =
        (⟨400, errBody "No selected file."⟩, st)) ∧
    (∀ e fname newId dateStr now, fname ≠ "" →
      upload_photo (Except.error e) (some fname) newId dateStr now st =
        (⟨500, errBody ("Cloud Upload Failed: " ++ e)⟩, st)) := by
  refine ⟨?_, ?_, ?_⟩
  · intro up newId dateStr now
    simp [upload_photo, login_required, upload_photo_core, hs, hdb]
  · intro up newId dateStr now
    simp [upload_photo, login_required, upload_photo_core, hs, hdb]
  · intro e fname newId dateStr now hf
    simp [upload_photo, login_required, upload_photo_core, hs, hdb, hf]

theorem c5_upload_failure_no_record_witness :
    upload_photo (Except.ok ("u", "p")) none oidNew "2026-10-12" 5 stAlice =
      (⟨400, errBody "No photo file provided."⟩, stAlice) ∧
    upload_photo (Except.ok ("u", "p")) (some "") oidNew "2026-10-12" 5 stAlice =
      (⟨400, errBody "No selected file."⟩, stAlice) ∧
    upload_photo (Except.error "boom") (some "f.jpg") oidNew "2026-10-12" 5 stAlice =
      (⟨500, errBody ("Cloud Upload Failed: " ++ "boom")⟩, stAlice) := by
  have h := c5_upload_failure_no_record stAlice ⟨oidA, "alice"⟩ rfl rfl
  exact ⟨h.1 (Except.ok ("u", "p")) oidNew "2026-10-12" 5,
    h.2.1 (Except.ok ("u", "p")) oidNew "2026-10-12" 5,
    h.2.2 "boom" "f.jpg" oidNew "2026-10-12" 5 (by decide)⟩

/-- C4: when the photo exists and belongs to the session user but the
Cloudinary destroy raises, delete answers 500 with the exception message and
removes nothing: the record store and the blob store are untouched. -/
theorem c4_delete_blob_failure_keeps_record (st : AppState) (sd : SessionData)
    (p : Photo) (pid msg : String)
    (hdb : st.dbUp = true) (hs : st.sess = some sd)
    (hpv : isValidObjectId pid = true) (huv : isValidObjectId sd.user_id = true)
    (hmem : p ∈ st.photos) (hpid : p._id = pid) (howner : p.user_id = sd.user_id) :
    delete_photo pid (Except.error msg) st =
      (⟨500, errBody ("Deletion failed: " ++ msg)⟩, st) := by
  have hfind : (st.photos.find? (fun q => q._id == pid && q.user_id == sd.user_id)).isSome := by
    rw [List.find?_isSome]
    exact ⟨p, hmem, by simp [hpid, howner]⟩
  rw [Option.isSome_iff_exists] at hfind
  rcases hfind with ⟨q, hq⟩
  simp [delete_photo, login_required, delete_photo_core, hs, hdb, parseObjectId, hpv, huv, hq]

theorem c4_delete_blob_failure_keeps_record_witness :
    delete_photo oidP (Except.error "cloud down") stAlice =
      (⟨500, errBody ("Deletion failed: " ++ "cloud down")⟩, stAlice) :=
  c4_delete_blob_failure_keeps_record stAlice ⟨oidA, "alice"⟩ photoA oidP "cloud down"
    rfl rfl (by decide) (by decide) (by decide) rfl rfl

/-- C10: a delete request whose photo identifier is not a well-formed
ObjectId string answers 500 (the InvalidId exception is caught by the
handler's try/except), not 404, and mutates no store. -/
theorem c10_delete_invalid_objectid (st : AppState) (sd : SessionData)
    (pid : String) (destroy : Except String Unit)
    (hdb : st.dbUp = true) (hs : st.sess = some sd)
    (hbad : isValidObjectId pid = false) :
    delete_photo pid destroy st =
      (⟨500, errBody ("Deletion failed: " ++ invalidOidMsg pid)⟩, st) ∧
    (delete_photo pid destroy st).1.status ≠ 404 := by
  have heq : delete_photo pid destroy st =
      (⟨500, errBody ("Deletion failed: " ++ invalidOidMsg pid)⟩, st) := by
    simp [delete_photo, login_required, delete_photo_core, hs, hdb, parseObjectId, hbad]
  exact ⟨heq, by rw [heq]; simp⟩

theorem c10_delete_invalid_objectid_witness :
    delete_photo "not-an-objectid" (Except.ok ()) stAlice =
      (⟨500, errBody ("Deletion failed: " ++ invalidOidMsg "not-an-objectid")⟩, stAlice) :=
  (c10_delete_invalid_objectid stAlice ⟨oidA, "alice"⟩ "not-an-objectid" (Except.ok ())
    rfl rfl (by decide)).1



/-- Success path of GET /api/photos, shared by several theorems below. -/
theorem get_photos_success (st : AppState) (sd : SessionData)
    (hdb : st.dbUp = true) (hs : st.sess = some sd)
    (huv : isValidObjectId sd.user_id = true) :
    get_photos st =
      (⟨200, [("success", JVal.boolv true),
        ("photos", JVal.arr ((sortByTimeDesc
          (st.photos.filter (fun p => p.user_id == sd.user_id))).map listViewDict))]⟩, st) := by
  simp [get_photos, login_required, get_photos_core, hs, hdb, parseObjectId, huv]

/-- The photos array of a successful list response, explicitly. -/
theorem respPhotos_get_photos (st : AppState) (sd : SessionData)
    (hdb : st.dbUp = true) (hs : st.sess = some sd)
    (huv : isValidObjectId sd.user_id = true) :
    respPhotos (get_photos st).1 =
      (sortByTimeDesc (st.photos.filter (fun p => p.user_id == sd.user_id))).map
        listViewDict := by
  rw [get_photos_success st sd hdb hs huv]
  rfl

/-- C6: list answers 200 without touching the state; its photos array is the
owner-filtered collection sorted by upload time descending (stated as: the
array is the view of a sorted rearrangement — a permutation — of exactly the
records owned by the session user, in weakly decreasing `uploaded_at` order),
and it is empty, not an error, when the user owns nothing. -/
theorem c6_list_owned_sorted_desc (st : AppState) (sd : SessionData)
    (hdb : st.dbUp = true) (hs : st.sess = some sd)
    (huv : isValidObjectId sd.user_id = true) :
    (get_photos st).1.status = 200 ∧
    (get_photos st).2 = st ∧
    respPhotos (get_photos st).1 =
      (sortByTimeDesc (st.photos.filter (fun p => p.user_id == sd.user_id))).map
        listViewDict ∧
    List.Perm (sortByTimeDesc (st.photos.filter (fun p => p.user_id == sd.user_id)))
      (st.photos.filter (fun p => p.user_id == sd.user_id)) ∧
    List.Pairwise (fun a b => b.uploaded_at ≤ a.uploaded_at)
      (sortByTimeDesc (st.photos.filter (fun p => p.user_id == sd.user_id))) ∧
    (st.photos.filter (fun p => p.user_id == sd.user_id) = [] →
      respPhotos (get_photos st).1 = []) := by
  have heq := get_photos_success st sd hdb hs huv
  refine ⟨by rw [heq], by rw [heq], respPhotos_get_photos st sd hdb hs huv,
    sortByTimeDesc_perm _, sortByTimeDesc_sorted _, ?_⟩
  intro hempty
  rw [respPhotos_get_photos st sd hdb hs huv, hempty]
  rfl

theorem c6_list_owned_sorted_desc_witness :
    respPhotos (get_photos stAlice).1 =
      (sortByTimeDesc (stAlice.photos.filter
        (fun p => p.user_id == (⟨oidA, "alice"⟩ : SessionData).user_id))).map
        listViewDict ∧
    (get_photos stAlice).1.status = 200 ∧ (get_photos stAlice).2 = stAlice := by
  have h := c6_list_owned_sorted_desc stAlice ⟨oidA, "alice"⟩ rfl rfl (by decide)
  exact ⟨h.2.2.1, h.1, h.2.1⟩



/-- Success path of POST /api/photos, shared by the theorems below. -/
theorem upload_photo_success (st : AppState) (sd : SessionData)
    (hdb : st.dbUp = true) (hs : st.sess = some sd)
    (huv : isValidObjectId sd.user_id = true)
    (fname secure_url public_id newId dateStr : String) (now : Nat) (hf : fname ≠ "") :
    upload_photo (Except.ok (secure_url, public_id)) (some fname) newId dateStr now st =
      (⟨200, [("success", JVal.boolv true),
        ("message", JVal.str "Photo uploaded successfully."),
        ("photo", JVal.obj (uploadRespDict
          ⟨newId, sd.user_id, secure_url, public_id, fname, dateStr, now⟩))]⟩,
       { st with blobs := st.blobs ++ [public_id],
                 photos := st.photos ++
                   [⟨newId, sd.user_id, secure_url, public_id, fname, dateStr, now⟩] }) := by
  simp [upload_photo, login_required, upload_photo_core, hs, hdb, hf, parseObjectId, huv]

/-- C8: a successful upload response and every element of a list response
omit the owner identifier, the Cloudinary deletion handle and the internal
upload timestamp. -/
theorem c8_views_strip_internal_fields (st : AppState) (sd : SessionData)
    (hdb : st.dbUp = true) (hs : st.sess = some sd)
    (huv : isValidObjectId sd.user_id = true)
    (fname secure_url public_id newId dateStr : String) (now : Nat) (hf : fname ≠ "") :
    (upload_photo (Except.ok (secure_url, public_id)) (some fname) newId dateStr now
        st).1.status = 200 ∧
    dictGet (respPhotoObj (upload_photo (Except.ok (secure_url, public_id)) (some fname)
      newId dateStr now st).1) "user_id" = none ∧
    dictGet (respPhotoObj (upload_photo (Except.ok (secure_url, public_id)) (some fname)
      newId dateStr now st).1) "public_id" = none ∧
    dictGet (respPhotoObj (upload_photo (Except.ok (secure_url, public_id)) (some fname)
      newId dateStr now st).1) "uploaded_at" = none ∧
    (∀ d ∈ respPhotos (get_photos st).1,
      dictGet d "user_id" = none ∧ dictGet d "public_id" = none ∧
        dictGet d "uploaded_at" = none) := by
  have heq := upload_photo_success st sd hdb hs huv fname secure_url public_id newId
    dateStr now hf
  refine ⟨by rw [heq], by rw [heq]; rfl, by rw [heq]; rfl, by rw [heq]; rfl, ?_⟩
  intro d hd
  rw [respPhotos_get_photos st sd hdb hs huv] at hd
  rcases List.mem_map.mp hd with ⟨q, _, rfl⟩
  rw [listViewDict_eq]
  exact ⟨rfl, rfl, rfl⟩

theorem c8_views_strip_internal_fields_witness :
    dictGet (respPhotoObj (upload_photo
      (Except.ok ("https://res.cloudinary.example/img2.jpg", "cloudgallery/img2"))
      (some "img2.jpg") oidNew "2026-10-12" 101 stAlice).1) "user_id" = none ∧
    dictGet (respPhotoObj (upload_photo
      (Except.ok ("https://res.cloudinary.example/img2.jpg", "cloudgallery/img2"))
      (some "img2.jpg") oidNew "2026-10-12" 101 stAlice).1) "public_id" = none ∧
    dictGet (respPhotoObj (upload_photo
      (Except.ok ("https://res.cloudinary.example/img2.jpg", "cloudgallery/img2"))
      (some "img2.jpg") oidNew "2026-10-12" 101 stAlice).1) "uploaded_at" = none := by
  have h := c8_views_strip_internal_fields stAlice ⟨oidA, "alice"⟩ rfl rfl (by decide)
    "img2.jpg" "https://res.cloudinary.example/img2.jpg" "cloudgallery/img2" oidNew
    "2026-10-12" 101 (by decide)
  exact ⟨h.2.1, h.2.2.1, h.2.2.2.1⟩

/-- C1: with Bob logged in and a photo record belonging to a different user,
no element of Bob's list response carries that photo's identifier, and Bob's
delete request against it answers 404 and leaves every store exactly as it
was. -/
theorem c1_cross_user_isolation (st : AppState) (sd : SessionData) (p : Photo)
    (destroy : Except String Unit)
    (hdb : st.dbUp = true) (hs : st.sess = some sd)
    (huv : isValidObjectId sd.user_id = true) (hpv : isValidObjectId p._id = true)
    (hmem : p ∈ st.photos) (hown : p.user_id ≠ sd.user_id)
    (huniq : ∀ q ∈ st.photos, q._id = p._id → q = p) :
    (∀ d ∈ respPhotos (get_photos st).1, dictGet d "_id" ≠ some (BVal.str p._id)) ∧
    delete_photo p._id destroy st =
      (⟨404, errBody "Photo not found or unauthorized to delete."⟩, st) := by
  constructor
  · intro d hd
    rw [respPhotos_get_photos st sd hdb hs huv] at hd
    rcases List.mem_map.mp hd with ⟨q, hq, rfl⟩
    have hqf : q ∈ st.photos.filter (fun r => r.user_id == sd.user_id) :=
      (sortByTimeDesc_perm _).mem_iff.mp hq
    rcases List.mem_filter.mp hqf with ⟨hqmem, hqown⟩
    have hqid : q._id ≠ p._id := by
      intro hid
      have : q = p := huniq q hqmem hid
      subst this
      exact hown (by simpa using hqown)
    rw [dictGet_listViewDict_id]
    simp [hqid]
  · have hfind : st.photos.find?
        (fun q => q._id == p._id && q.user_id == sd.user_id) = none := by
      rw [List.find?_eq_none]
      intro q hq hmatch
      simp only [Bool.and_eq_true, beq_iff_eq] at hmatch
      have : q = p := huniq q hq hmatch.1
      subst this
      exact hown hmatch.2
    simp [delete_photo, login_required, delete_photo_core, hs, hdb, parseObjectId,
      hpv, huv, hfind]

theorem c1_cross_user_isolation_witness :
    delete_photo photoA._id (Except.ok ()) stBob =
      (⟨404, errBody "Photo not found or unauthorized to delete."⟩, stBob) :=
  (c1_cross_user_isolation stBob ⟨oidB, "bob"⟩ photoA (Except.ok ()) rfl rfl
    (by decide) (by decide) (by decide) (by decide) (by decide)).2

end Gallery
